import Mathlib

/-!
Verification of the Genesys recording-retrieval script (src/main.py) against its
specification.  The Python source is shallowly embedded: JSON values become an
inductive type, the retrying network loops become functions of an oracle that
says which attempt succeeds, file writes become pure functions on the list of
rows a file holds, and sleeps, requests and re-authentications are recorded in
explicit event traces.
-/

namespace Analyse

/-- JSON values as produced by response.json().  Numbers are modelled as
rationals so that the float division durationMilliseconds / 1000 in find_ids is
exact. -/
inductive Json where
  | null : Json
  | bool (b : Bool) : Json
  | num (q : ℚ) : Json
  | str (s : String) : Json
  | arr (items : List Json) : Json
  | obj (entries : List (String × Json)) : Json

/-- Python dict lookup on the association list backing a JSON object.  Keys in
a dict are unique, so first match is the match. -/
def lookupJ (k : String) : List (String × Json) → Option Json
  | [] => none
  | (k', v) :: rest => if k' = k then some v else lookupJ k rest

/-- Python expression x.get(k, d): returns the entry for k, or the default d
when the key is absent.  Calling .get on a non-dict raises AttributeError,
modelled as none. -/
def pyGet (j : Json) (k : String) (d : Json) : Option Json :=
  match j with
  | .obj kvs => some ((lookupJ k kvs).getD d)
  | _ => none

/-- Embeds main.py lines 207-213 (the second, effective definition of
find_recordings_by_conversation_id): recordings is response_json.get(
"entities", response_json) when the response is a dict and response_json
otherwise, and is then wrapped in a singleton list unless it is already a
list.  The result type makes the always-a-list guarantee structural. -/
def normalize (j : Json) : List Json :=
  let recordings :=
    match j with
    | .obj kvs => (lookupJ "entities" kvs).getD (.obj kvs)
    | _ => j
  match recordings with
  | .arr l => l
  | v => [v]

/-- A calendar date as parsed by datetime.strptime(s, "%Y-%m-%d"). -/
structure Date where
  y : Nat
  m : Nat
  d : Nat

/-- Gregorian leap-year rule, as implemented by the datetime module. -/
def isLeap (y : Nat) : Bool :=
  (y % 4 == 0 && !(y % 100 == 0)) || y % 400 == 0

/-- Length of month m of year y in the proleptic Gregorian calendar used by
datetime. -/
def daysInMonth (y m : Nat) : Nat :=
  if m = 2 then (if isLeap y then 29 else 28)
  else if m = 4 ∨ m = 6 ∨ m = 9 ∨ m = 11 then 30
  else 31

/-- The dates datetime.strptime accepts: datetime.MINYEAR = 1,
datetime.MAXYEAR = 9999, months 1-12, days 1 to the length of the month. -/
def validDate (dt : Date) : Prop :=
  1 ≤ dt.y ∧ dt.y ≤ 9999 ∧ 1 ≤ dt.m ∧ dt.m ≤ 12 ∧ 1 ≤ dt.d ∧ dt.d ≤ daysInMonth dt.y dt.m

instance (dt : Date) : Decidable (validDate dt) := by
  unfold validDate; infer_instance

/-- Embeds end_dt = strptime(end_date) + timedelta(days=1) from main.py line
71: the successor date in the calendar, rolling over month and year ends. -/
def nextDay (dt : Date) : Date :=
  if dt.d < daysInMonth dt.y dt.m then ⟨dt.y, dt.m, dt.d + 1⟩
  else if dt.m < 12 then ⟨dt.y, dt.m + 1, 1⟩
  else ⟨dt.y + 1, 1, 1⟩

/-- Days occupied by the months strictly before month m in year y (months are
1-based, so values 0 and 1 both contribute nothing). -/
def daysBeforeMonth (y : Nat) : Nat → Nat
  | 0 => 0
  | 1 => 0
  | m + 2 => daysBeforeMonth y (m + 1) + daysInMonth y (m + 1)

/-- Length of year y. -/
def daysInYear (y : Nat) : Nat := daysBeforeMonth y 13

/-- Days occupied by the years strictly before year y (years start at 1). -/
def daysBeforeYear : Nat → Nat
  | 0 => 0
  | 1 => 0
  | y + 2 => daysBeforeYear (y + 1) + daysInYear (y + 1)

/-- Absolute ordinal of a date on the calendar timeline; two dates are one
calendar day apart exactly when their ordinals differ by one. -/
def dayNumber (dt : Date) : Nat :=
  daysBeforeYear dt.y + daysBeforeMonth dt.y dt.m + dt.d

/-- Zero-padded decimal rendering used by datetime.isoformat. -/
def padNum (w n : Nat) : String :=
  let s := toString n
  if w ≤ s.length then s else String.mk (List.replicate (w - s.length) '0') ++ s

/-- datetime.isoformat() of a midnight datetime parsed from "%Y-%m-%d":
YYYY-MM-DDT00:00:00. -/
def isoMidnight (dt : Date) : String :=
  padNum 4 dt.y ++ "-" ++ padNum 2 dt.m ++ "-" ++ padNum 2 dt.d ++ "T00:00:00"

/-- Embeds the interval string built at main.py line 81:
f-string start_dt.isoformat() Z / end_dt.isoformat() Z, where end_dt is the
parsed end date plus one day. -/
def find_ids_interval (s e : Date) : String :=
  isoMidnight s ++ "Z/" ++ isoMidnight (nextDay e) ++ "Z"

/-- The POST body of main.py lines 80-84.  pageNumber is absent initially and
set by the pagination loop. -/
structure QueryBody where
  interval : String
  order : String
  pageSize : Nat
  pageNumber : Option Nat

/-- Initial query body of the time-range query (main.py lines 80-84). -/
def find_ids_initial_body (s e : Date) : QueryBody :=
  ⟨find_ids_interval s e, "desc", 100, none⟩

theorem daysBeforeMonth_succ (y m : Nat) (h : 1 ≤ m) :
    daysBeforeMonth y (m + 1) = daysBeforeMonth y m + daysInMonth y m := by
  match m, h with
  | k + 1, _ => rfl

theorem daysBeforeYear_succ (y : Nat) (h : 1 ≤ y) :
    daysBeforeYear (y + 1) = daysBeforeYear y + daysInYear y := by
  match y, h with
  | k + 1, _ => rfl

theorem dayNumber_nextDay (dt : Date) (h : validDate dt) :
    dayNumber (nextDay dt) = dayNumber dt + 1 := by
  obtain ⟨y, m, d⟩ := dt
  obtain ⟨hy1, hy2, hm1, hm2, hd1, hd2⟩ := h
  unfold nextDay
  dsimp only at *
  by_cases hlt : d < daysInMonth y m
  · simp only [hlt, if_true, dayNumber]
    omega
  · by_cases hm : m < 12
    · simp only [hlt, if_false, hm, if_true, dayNumber]
      rw [daysBeforeMonth_succ y m hm1]
      omega
    · have hm12 : m = 12 := by omega
      subst hm12
      have h31 : daysInMonth y 12 = 31 := by norm_num [daysInMonth]
      have hdiy : daysInYear y = daysBeforeMonth y 12 + 31 := by
        have h13 : daysBeforeMonth y 13 = daysBeforeMonth y 12 + daysInMonth y 12 :=
          daysBeforeMonth_succ y 12 (by norm_num)
        rw [daysInYear, h13, h31]
      have hb1 : daysBeforeMonth (y + 1) 1 = 0 := rfl
      simp only [hlt, if_false, hm, dayNumber]
      rw [daysBeforeYear_succ y hy1, hdiy, hb1]
      omega

/-- C1: for every valid calendar-date pair, the interval string of the
time-range query runs from the start date at T00:00:00Z to the end date plus
exactly one calendar day at T00:00:00Z (an exclusive upper bound); the
successor date used as the upper bound is one calendar day after the end date
on the absolute day ordinal, and the pair 2024-01-01 / 2024-01-01 yields
"2024-01-01T00:00:00Z/2024-01-02T00:00:00Z". -/
theorem find_ids_interval_correct (s e : Date) (_hs : validDate s) (he : validDate e) :
    find_ids_interval s e = isoMidnight s ++ "Z/" ++ isoMidnight (nextDay e) ++ "Z"
    ∧ dayNumber (nextDay e) = dayNumber e + 1
    ∧ find_ids_interval ⟨2024, 1, 1⟩ ⟨2024, 1, 1⟩
        = "2024-01-01T00:00:00Z/2024-01-02T00:00:00Z" :=
  ⟨rfl, dayNumber_nextDay e he, by decide⟩

/-- Witness: find_ids_interval_correct applied at the concrete pair
2024-01-01 / 2024-01-01. -/
theorem find_ids_interval_correct_witness :
    validDate ⟨2024, 1, 1⟩
    ∧ dayNumber (nextDay ⟨2024, 1, 1⟩) = dayNumber (⟨2024, 1, 1⟩ : Date) + 1 :=
  ⟨by decide,
   (find_ids_interval_correct ⟨2024, 1, 1⟩ ⟨2024, 1, 1⟩ (by decide) (by decide)).2.1⟩

/-- C2: the normalization of the detail-fetch response handles all three
shapes: an object with an entities array yields that array, a bare array is
used directly, and an object without an entities key is wrapped as a
single-element list.  The result type List Json makes "always a list" hold by
construction. -/
theorem normalize_shapes :
    (∀ (kvs : List (String × Json)) (l : List Json),
        lookupJ "entities" kvs = some (.arr l) → normalize (.obj kvs) = l)
    ∧ (∀ l : List Json, normalize (.arr l) = l)
    ∧ (∀ kvs : List (String × Json),
        lookupJ "entities" kvs = none → normalize (.obj kvs) = [.obj kvs]) := by
  refine ⟨?_, ?_, ?_⟩
  · intro kvs l h
    simp [normalize, h]
  · intro l
    rfl
  · intro kvs h
    simp [normalize, h]

/-- Witness: normalize_shapes applied to the three concrete shapes from the
specification law. -/
theorem normalize_shapes_witness :
    normalize (.obj [("entities", .arr [.str "r1", .str "r2"])]) = [.str "r1", .str "r2"]
    ∧ normalize (.arr [.str "r1", .str "r2"]) = [.str "r1", .str "r2"]
    ∧ normalize (.obj [("id", .str "r1")]) = [.obj [("id", .str "r1")]] :=
  ⟨normalize_shapes.1 [("entities", .arr [.str "r1", .str "r2"])] [.str "r1", .str "r2"] rfl,
   normalize_shapes.2.1 [.str "r1", .str "r2"],
   normalize_shapes.2.2 [("id", .str "r1")] rfl⟩

/-- Observable effects of the retrying network loops: an HTTP request for a
given 0-based attempt index, a re-authentication, and a sleep of a given
number of seconds. -/
inductive Ev where
  | req (attempt : Nat) : Ev
  | reauth : Ev
  | sleep (secs : Nat) : Ev
  deriving DecidableEq

/-- Whether an event is an HTTP request attempt. -/
def isReq : Ev → Bool
  | .req _ => true
  | _ => false

/-- Embeds the retry loop of authenticate (main.py lines 36-55).  The oracle
ok says whether the request of a given attempt index succeeds.  The Bool
result is true on success and false when the final attempt re-raises (the
fatal path).  Attempts remaining are tracked as fuel; the loop is entered
with fuel 3 (max_retries) and attempt index 0, and fuel = 0 inside the body
marks the last attempt (attempt == max_retries - 1), on which no backoff
sleep happens and the error propagates. -/
def authGo (ok : Nat → Bool) : Nat → Nat → Bool × List Ev
  | 0, _ => (false, [])
  | fuel + 1, attempt =>
    if ok attempt then (true, [.req attempt])
    else if fuel = 0 then (false, [.req attempt])
    else
      let r := authGo ok fuel (attempt + 1)
      (r.1, .req attempt :: .sleep (2 ^ attempt) :: r.2)

/-- authenticate with max_retries = 3, starting at attempt 0. -/
def authenticate (ok : Nat → Bool) : Bool × List Ev := authGo ok 3 0

/-- Embeds the row built for one recording at main.py lines 229-238, reading
each field with a fallback, the media-type cell as recording.get("media",
recording.get("mediaType", "N/A")), and the download cell as
recording.get("mediaUris", {}).get("0", {}).get("mediaUri",
recording.get("download", {}).get("url", "N/A")).  Sub-expressions are
evaluated in Python order; none models an AttributeError from calling .get
on a non-dict. -/
def recordRow (convId : String) (r : Json) : Option (List Json) := do
  let idv ← pyGet r "id" (.str "N/A")
  let st ← pyGet r "startTime" (.str "N/A")
  let et ← pyGet r "endTime" (.str "N/A")
  let mtd ← pyGet r "mediaType" (.str "N/A")
  let mt ← pyGet r "media" mtd
  let fs ← pyGet r "fileState" (.str "N/A")
  let mu ← pyGet r "mediaUris" (.obj [])
  let mu0 ← pyGet mu "0" (.obj [])
  let dl ← pyGet r "download" (.obj [])
  let dlUrl ← pyGet dl "url" (.str "N/A")
  let uri ← pyGet mu0 "mediaUri" dlUrl
  pure [.str convId, idv, st, et, mt, fs, uri]

/-- Header row written by the identifier-detail exporter (main.py line 225). -/
def header7 : List Json :=
  [.str "Conversation ID", .str "Recording ID", .str "Start Time", .str "End Time",
   .str "Media Type", .str "File State", .str "Download URL"]

/-- The writer loop of main.py lines 228-238: one row per record in order;
a row whose construction raises stops the loop (the rows already written
stay in the file) and the Bool reports whether the loop completed. -/
def writeRows (convId : String) : List Json → List (List Json) × Bool
  | [] => ([], true)
  | r :: rs =>
    match recordRow convId r with
    | none => ([], false)
    | some row =>
      let t := writeRows convId rs
      (row :: t.1, t.2)

/-- Embeds the export step of main.py lines 215-238.  A file is its list of
rows; a missing file and an empty file are both the empty list (the code
treats not os.path.exists(path) or os.path.getsize(path) == 0 alike).  The
file is opened in append mode, the header is written exactly when the file
was new or empty, then the data rows. -/
def appendFile (convId : String) (recs : List Json) (file : List (List Json)) :
    List (List Json) × Bool :=
  let w := writeRows convId recs
  (file ++ (if file.isEmpty then [header7] else []) ++ w.1, w.2)

/-- Embeds the retry loop of the second (effective) definition of
find_recordings_by_conversation_id (main.py lines 200-253).  On a successful
attempt the response is normalized and exported and the recordings list is
returned (or the empty list when a row raised mid-write, since the exception
reaches the outer handler).  On a failed attempt before the last, the code
re-authenticates and then sleeps 2 ^ attempt; after the last failed attempt
it returns the empty list.  The trace records requests, re-authentications
and sleeps in order. -/
def v2Go (ok : Nat → Bool) (body : Json) (convId : String) (file : List (List Json)) :
    Nat → Nat → List Json × List (List Json) × List Ev
  | 0, _ => ([], file, [])
  | fuel + 1, attempt =>
    if ok attempt then
      let recs := normalize body
      let w := appendFile convId recs file
      (if w.2 then recs else [], w.1, [.req attempt])
    else if fuel = 0 then ([], file, [.req attempt])
    else
      let r := v2Go ok body convId file fuel (attempt + 1)
      (r.1, r.2.1, .req attempt :: .reauth :: .sleep (2 ^ attempt) :: r.2.2)

/-- find_recordings_by_conversation_id (the second definition, the one the
class actually binds) with max_retries = 3, starting at attempt 0.  Returns
the recordings list, the file rows after the call, and the event trace. -/
def find_recordings_by_conversation_id (ok : Nat → Bool) (body : Json) (convId : String)
    (file : List (List Json)) : List Json × List (List Json) × List Ev :=
  v2Go ok body convId file 3 0

theorem authenticate_cases (ok : Nat → Bool) :
    authenticate ok =
      if ok 0 then (true, [.req 0])
      else if ok 1 then (true, [.req 0, .sleep 1, .req 1])
      else if ok 2 then (true, [.req 0, .sleep 1, .req 1, .sleep 2, .req 2])
      else (false, [.req 0, .sleep 1, .req 1, .sleep 2, .req 2]) := by
  cases h0 : ok 0 <;> cases h1 : ok 1 <;> cases h2 : ok 2 <;>
    simp [authenticate, authGo, h0, h1, h2]

theorem find_recordings_cases (ok : Nat → Bool) (body : Json) (convId : String)
    (file : List (List Json)) :
    find_recordings_by_conversation_id ok body convId file =
      (let recs := normalize body
       let w := appendFile convId recs file
       if ok 0 then (if w.2 then recs else [], w.1, [.req 0])
       else if ok 1 then
         (if w.2 then recs else [], w.1, [.req 0, .reauth, .sleep 1, .req 1])
       else if ok 2 then
         (if w.2 then recs else [], w.1,
          [.req 0, .reauth, .sleep 1, .req 1, .reauth, .sleep 2, .req 2])
       else ([], file, [.req 0, .reauth, .sleep 1, .req 1, .reauth, .sleep 2, .req 2])) := by
  cases h0 : ok 0 <;> cases h1 : ok 1 <;> cases h2 : ok 2 <;>
    simp [find_recordings_by_conversation_id, v2Go, h0, h1, h2]

/-- C3: on every retryable transport failure that is followed by another
attempt, the backoff delay is exactly 2 ^ attempt seconds, and at the detail
fetcher the retry is preceded by a re-authentication; when all three attempts
fail, authenticate ends on the fatal path after exactly the trace request 0,
sleep 1, request 1, sleep 2, request 2, and the detail fetcher returns the
empty list with the file untouched after the analogous trace with a reauth
before each sleep; every sleep that occurs anywhere is 2 ^ k for a failed
attempt k < 2, and no run makes more than 3 requests. -/
theorem retry_backoff_policy :
    (∀ ok : Nat → Bool, ok 0 = false → ok 1 = false → ok 2 = false →
      authenticate ok = (false, [.req 0, .sleep 1, .req 1, .sleep 2, .req 2]))
    ∧ (∀ (ok : Nat → Bool) (body : Json) (convId : String) (file : List (List Json)),
        ok 0 = false → ok 1 = false → ok 2 = false →
        find_recordings_by_conversation_id ok body convId file
          = ([], file, [.req 0, .reauth, .sleep 1, .req 1, .reauth, .sleep 2, .req 2]))
    ∧ (∀ (ok : Nat → Bool) (s : Nat), Ev.sleep s ∈ (authenticate ok).2 →
        ∃ k, k < 2 ∧ ok k = false ∧ s = 2 ^ k)
    ∧ (∀ (ok : Nat → Bool) (body : Json) (convId : String) (file : List (List Json)) (s : Nat),
        Ev.sleep s ∈ (find_recordings_by_conversation_id ok body convId file).2.2 →
        ∃ k, k < 2 ∧ ok k = false ∧ s = 2 ^ k)
    ∧ (∀ ok : Nat → Bool, ((authenticate ok).2.countP (fun e => isReq e)) ≤ 3)
    ∧ (∀ (ok : Nat → Bool) (body : Json) (convId : String) (file : List (List Json)),
        ((find_recordings_by_conversation_id ok body convId file).2.2.countP
          (fun e => isReq e)) ≤ 3) := by
  refine ⟨?_, ?_, ?_, ?_, ?_, ?_⟩
  · intro ok h0 h1 h2
    rw [authenticate_cases]
    simp [h0, h1, h2]
  · intro ok body convId file h0 h1 h2
    rw [find_recordings_cases]
    simp [h0, h1, h2]
  · intro ok s h
    rw [authenticate_cases] at h
    cases h0 : ok 0 <;> cases h1 : ok 1 <;> cases h2 : ok 2 <;>
      simp [h0, h1, h2] at h <;>
      first
      | (rcases h with h | h
         · exact ⟨0, by omega, h0, by omega⟩
         · exact ⟨1, by omega, h1, by omega⟩)
      | exact ⟨0, by omega, h0, by omega⟩
  · intro ok body convId file s h
    rw [find_recordings_cases] at h
    cases h0 : ok 0 <;> cases h1 : ok 1 <;> cases h2 : ok 2 <;>
      simp [h0, h1, h2] at h <;>
      first
      | (rcases h with h | h
         · exact ⟨0, by omega, h0, by omega⟩
         · exact ⟨1, by omega, h1, by omega⟩)
      | exact ⟨0, by omega, h0, by omega⟩
  · intro ok
    rw [authenticate_cases]
    cases h0 : ok 0 <;> cases h1 : ok 1 <;> cases h2 : ok 2 <;> simp [h0, h1, h2, isReq]
  · intro ok body convId file
    rw [find_recordings_cases]
    cases h0 : ok 0 <;> cases h1 : ok 1 <;> cases h2 : ok 2 <;>
      simp [h0, h1, h2, isReq]

/-- Witness: retry_backoff_policy applied to the oracle on which every
attempt fails. -/
theorem retry_backoff_policy_witness :
    authenticate (fun _ => false) = (false, [.req 0, .sleep 1, .req 1, .sleep 2, .req 2])
    ∧ find_recordings_by_conversation_id (fun _ => false) .null "c" []
        = ([], [], [.req 0, .reauth, .sleep 1, .req 1, .reauth, .sleep 2, .req 2]) :=
  ⟨retry_backoff_policy.1 (fun _ => false) rfl rfl rfl,
   retry_backoff_policy.2.1 (fun _ => false) .null "c" [] rfl rfl rfl⟩

/-- C4: for the identifier-detail exporter, the header row is written exactly
when the file was missing or empty at the time of writing and is never
re-emitted on a non-empty file, data rows are appended one per record in
arrival order, and a file holding a header and two rows, appended with one
more record, ends as exactly one header row followed by three data rows. -/
theorem appendFile_header_invariant :
    (∀ (convId : String) (recs : List Json) (file : List (List Json)), file ≠ [] →
      (appendFile convId recs file).1 = file ++ (writeRows convId recs).1)
    ∧ (∀ (convId : String) (recs : List Json),
        (appendFile convId recs []).1 = header7 :: (writeRows convId recs).1)
    ∧ (∀ (convId : String) (recs : List Json),
        (∀ r ∈ recs, (recordRow convId r).isSome) →
        (writeRows convId recs).1 = recs.filterMap (recordRow convId))
    ∧ ((appendFile "c" [.obj [("id", .str "r3")]]
          [header7,
           [.str "c", .str "r1", .str "N/A", .str "N/A", .str "N/A", .str "N/A", .str "N/A"],
           [.str "c", .str "r2", .str "N/A", .str "N/A", .str "N/A", .str "N/A", .str "N/A"]]).1
        = [header7,
           [.str "c", .str "r1", .str "N/A", .str "N/A", .str "N/A", .str "N/A", .str "N/A"],
           [.str "c", .str "r2", .str "N/A", .str "N/A", .str "N/A", .str "N/A", .str "N/A"],
           [.str "c", .str "r3", .str "N/A", .str "N/A", .str "N/A", .str "N/A", .str "N/A"]]
        ∧ ([.str "c", .str "r1", .str "N/A", .str "N/A", .str "N/A", .str "N/A",
            .str "N/A"] : List Json) ≠ header7
        ∧ ([.str "c", .str "r2", .str "N/A", .str "N/A", .str "N/A", .str "N/A",
            .str "N/A"] : List Json) ≠ header7
        ∧ ([.str "c", .str "r3", .str "N/A", .str "N/A", .str "N/A", .str "N/A",
            .str "N/A"] : List Json) ≠ header7) := by
  refine ⟨?_, ?_, ?_, rfl, ?_, ?_, ?_⟩
  · intro convId recs file h
    cases file with
    | nil => exact absurd rfl h
    | cons a t => simp [appendFile]
  · intro convId recs
    simp [appendFile]
  · intro convId recs h
    induction recs with
    | nil => rfl
    | cons r rs ih =>
      obtain ⟨row, hrow⟩ := Option.isSome_iff_exists.mp (h r (by simp))
      simp only [writeRows, hrow, List.filterMap_cons]
      rw [ih (fun x hx => h x (by simp [hx]))]
  · simp [header7]
  · simp [header7]
  · simp [header7]

/-- Witness: appendFile_header_invariant applied to an append of one record
onto a non-empty file. -/
theorem appendFile_header_invariant_witness :
    (appendFile "c" [.obj [("id", .str "a")]] [[.str "x"]]).1
      = [[.str "x"]] ++ (writeRows "c" [.obj [("id", .str "a")]]).1 :=
  appendFile_header_invariant.1 "c" [.obj [("id", .str "a")]] [[.str "x"]] (by simp)

/-- Helper: Option.getD through Option.orElse. -/
theorem orElse_getD {α : Type} (o o2 : Option α) (d : α) :
    ((o.orElse fun _ => o2).getD d) = o.getD (o2.getD d) := by
  cases o <;> rfl

/-- Conversion of a JSON value to its object entries when it is an object. -/
def jAsObj : Json → Option (List (String × Json))
  | .obj l => some l
  | _ => none

/-- The value under key k, when present, is a JSON object (so that a
subsequent .get on it cannot raise). -/
def objIfPresent (k : String) (kvs : List (String × Json)) : Bool :=
  match lookupJ k kvs with
  | none => true
  | some (.obj _) => true
  | some _ => false

/-- The mediaUris entry, when present, is an object whose "0" entry, when
present, is itself an object. -/
def muWellFormed (kvs : List (String × Json)) : Bool :=
  match lookupJ "mediaUris" kvs with
  | none => true
  | some (.obj l) => objIfPresent "0" l
  | some _ => false

/-- The download-URI resolution as specified: the mediaUris map under key "0"
and, inside it, the mediaUri field, when that whole path is present;
otherwise the url field of the download object when present; otherwise the
sentinel. -/
def downloadUriSpec (kvs : List (String × Json)) : Json :=
  let fromMedia : Option Json := do
    let mu ← lookupJ "mediaUris" kvs
    let lmu ← jAsObj mu
    let mu0 ← lookupJ "0" lmu
    let l0 ← jAsObj mu0
    lookupJ "mediaUri" l0
  let fromDownload : Option Json := do
    let dl ← lookupJ "download" kvs
    let ld ← jAsObj dl
    lookupJ "url" ld
  (fromMedia.orElse fun _ => fromDownload).getD (.str "N/A")

/-- The exported row as the amended claim describes it: recordingId,
startTime, endTime and fileState fall back to the sentinel exactly when
absent; the media-type column prefers the media field over the mediaType
field over the sentinel; the download column follows downloadUriSpec. -/
def recordRowSpec (convId : String) (kvs : List (String × Json)) : List Json :=
  [.str convId,
   (lookupJ "id" kvs).getD (.str "N/A"),
   (lookupJ "startTime" kvs).getD (.str "N/A"),
   (lookupJ "endTime" kvs).getD (.str "N/A"),
   (lookupJ "media" kvs).getD ((lookupJ "mediaType" kvs).getD (.str "N/A")),
   (lookupJ "fileState" kvs).getD (.str "N/A"),
   downloadUriSpec kvs]

/-- C6 counterexample: the claim says the mediaType column is replaced by the
sentinel exactly when mediaType is absent, but a record carrying media
"video" and no mediaType key exports "video" in that column, not the
sentinel. -/
theorem recordRow_mediaType_counterexample :
    lookupJ "mediaType" [("media", Json.str "video")] = none
    ∧ recordRow "c" (.obj [("media", .str "video")])
        = some [.str "c", .str "N/A", .str "N/A", .str "N/A", .str "video",
                .str "N/A", .str "N/A"]
    ∧ Json.str "video" ≠ Json.str "N/A" :=
  ⟨rfl, rfl, by simp⟩

/-- C6 amended: for every record object whose mediaUris chain and download
entry are objects where present, every exported column matches
recordRowSpec: id, startTime, endTime, fileState fall back to the sentinel
exactly when absent, the media column prefers media over mediaType over the
sentinel, and the download column is mediaUris."0".mediaUri, else
download.url, else the sentinel. -/
theorem recordRow_fields (convId : String) (kvs : List (String × Json))
    (hmu : muWellFormed kvs = true) (hdl : objIfPresent "download" kvs = true) :
    recordRow convId (.obj kvs) = some (recordRowSpec convId kvs) := by
  have hdlUrl : ∀ dlv : Json, lookupJ "download" kvs = some dlv → ∃ ld, dlv = .obj ld := by
    intro dlv hv
    unfold objIfPresent at hdl
    rw [hv] at hdl
    cases dlv <;> simp_all
  unfold recordRow recordRowSpec downloadUriSpec
  simp only [pyGet, Option.bind_some, Option.some_bind]
  rcases hmul : lookupJ "mediaUris" kvs with _ | mu
  · rcases hdll : lookupJ "download" kvs with _ | dl
    · simp [jAsObj, lookupJ, orElse_getD]
    · obtain ⟨ld, rfl⟩ := hdlUrl dl hdll
      simp [jAsObj, lookupJ, orElse_getD]
  · unfold muWellFormed at hmu
    rw [hmul] at hmu
    rcases mu with _ | _ | _ | _ | _ | lmu <;> simp_all
    rcases hmu0 : lookupJ "0" lmu with _ | mu0
    · rcases hdll : lookupJ "download" kvs with _ | dl
      · simp [jAsObj, lookupJ, hmu0, orElse_getD]
      · obtain ⟨ld, rfl⟩ := hdlUrl dl hdll
        simp [jAsObj, lookupJ, hmu0, orElse_getD]
    · unfold objIfPresent at hmu
      rw [hmu0] at hmu
      rcases mu0 with _ | _ | _ | _ | _ | l0 <;> simp_all
      rcases hdll : lookupJ "download" kvs with _ | dl
      · simp [jAsObj, lookupJ, hmu0, orElse_getD]
      · obtain ⟨ld, rfl⟩ := hdlUrl dl hdll
        simp [jAsObj, lookupJ, hmu0, orElse_getD]

/-- Witness: recordRow_fields applied to a record with a mediaUris download
chain present. -/
theorem recordRow_fields_witness :
    muWellFormed [("id", Json.str "a"),
      ("mediaUris", Json.obj [("0", Json.obj [("mediaUri", Json.str "u")])])] = true
    ∧ objIfPresent "download" [("id", Json.str "a"),
        ("mediaUris", Json.obj [("0", Json.obj [("mediaUri", Json.str "u")])])] = true
    ∧ recordRow "c" (.obj [("id", Json.str "a"),
        ("mediaUris", Json.obj [("0", Json.obj [("mediaUri", Json.str "u")])])])
      = some (recordRowSpec "c" [("id", Json.str "a"),
          ("mediaUris", Json.obj [("0", Json.obj [("mediaUri", Json.str "u")])])]) :=
  ⟨rfl, rfl,
   recordRow_fields "c" [("id", Json.str "a"),
     ("mediaUris", Json.obj [("0", Json.obj [("mediaUri", Json.str "u")])])] rfl rfl⟩

/-- Embeds the pagination loop of find_ids (main.py lines 92-138).  The
oracle hasNext i says whether the response to request i contains a nextUri;
fuel bounds how many requests are observed.  The list holds, in order, the
pageNumber field of each request body sent (none = field absent, as in the
initial body).  The loop state mirrors the code: page_count starts at 1 and,
after a page with continuation evidence, the body pageNumber is set to the
current page_count and page_count is incremented afterwards. -/
def pageLoop (hasNext : Nat → Bool) : Nat → Nat → Nat → Option Nat → List (Option Nat)
  | 0, _, _, _ => []
  | fuel + 1, reqIdx, pageCount, pn =>
    pn :: (if hasNext reqIdx then
             pageLoop hasNext fuel (reqIdx + 1) (pageCount + 1) (some pageCount)
           else [])

/-- The pageNumber fields of the bodies find_ids sends, in request order. -/
def find_ids_bodies (hasNext : Nat → Bool) (fuel : Nat) : List (Option Nat) :=
  pageLoop hasNext fuel 0 1 none

/-- Modelled from the spec: the recordings-query endpoint treats pageNumber
as optional (section 6), so a body without the field requests the first
page; this maps a body pageNumber field to the page the server serves. -/
def requestedPage (pn : Option Nat) : Nat := pn.getD 1

/-- C5 counterexample: when the first response carries continuation evidence,
the second request body has pageNumber 1 — the very page the first request
(with no pageNumber, hence page 1) just fetched — not the page after it, so
the claim that each follow-up request asks for the page after the one just
fetched fails at this input. -/
theorem find_ids_pageNumber_counterexample :
    find_ids_bodies (fun i => i == 0) 5 = [none, some 1]
    ∧ requestedPage (some 1) ≠ requestedPage none + 1 :=
  ⟨rfl, by decide⟩

theorem pageLoop_pageNumbers (hn : Nat → Bool) :
    ∀ (fuel r p : Nat) (pn : Option Nat) (k : Nat) (b : Option Nat),
      (pageLoop hn fuel r p pn).get? (k + 1) = some b → b = some (p + k) := by
  intro fuel
  induction fuel with
  | zero => intro r p pn k b h; simp [pageLoop] at h
  | succ f ih =>
    intro r p pn k b h
    simp only [pageLoop, List.get?_cons_succ] at h
    by_cases hr : hn r
    · rw [if_pos hr] at h
      cases k with
      | zero =>
        cases f with
        | zero => simp [pageLoop] at h
        | succ f2 =>
          simp only [pageLoop, List.get?_cons_zero, Option.some.injEq] at h
          rw [← h, Nat.add_zero]
      | succ k2 =>
        have hb := ih (r + 1) (p + 1) (some p) k2 b h
        rw [hb]
        congr 1
        omega
    · rw [if_neg hr] at h
      simp at h

theorem pageLoop_length (hn : Nat → Bool) :
    ∀ (j fuel r p : Nat) (pn : Option Nat), j < fuel →
      (∀ i, i < j → hn (r + i) = true) → hn (r + j) = false →
      (pageLoop hn fuel r p pn).length = j + 1 := by
  intro j
  induction j with
  | zero =>
    intro fuel r p pn hf _ hj
    cases fuel with
    | zero => omega
    | succ f =>
      rw [Nat.add_zero] at hj
      simp [pageLoop, hj]
  | succ j ih =>
    intro fuel r p pn hf hall hj
    cases fuel with
    | zero => omega
    | succ f =>
      have hr : hn r = true := by simpa using hall 0 (by omega)
      have hrec : (pageLoop hn f (r + 1) (p + 1) (some p)).length = j + 1 := by
        refine ih f (r + 1) (p + 1) (some p) (by omega) ?_ ?_
        · intro i hi
          have := hall (i + 1) (by omega)
          rwa [show r + (i + 1) = r + 1 + i by omega] at this
        · rwa [show r + (j + 1) = r + 1 + j by omega] at hj
      simp [pageLoop, hr, hrec]

theorem pageLoop_length_pos (hn : Nat → Bool) (fuel r p : Nat) (pn : Option Nat)
    (h : 0 < fuel) : 1 ≤ (pageLoop hn fuel r p pn).length := by
  cases fuel with
  | zero => omega
  | succ f => simp [pageLoop]

theorem pageLoop_continues (hn : Nat → Bool) :
    ∀ (j fuel r p : Nat) (pn : Option Nat), j + 1 < fuel →
      (∀ i, i ≤ j → hn (r + i) = true) →
      j + 2 ≤ (pageLoop hn fuel r p pn).length := by
  intro j
  induction j with
  | zero =>
    intro fuel r p pn hf hall
    cases fuel with
    | zero => omega
    | succ f =>
      have hr : hn r = true := by simpa using hall 0 (by omega)
      have := pageLoop_length_pos hn f (r + 1) (p + 1) (some p) (by omega)
      simp [pageLoop, hr]
      omega
  | succ j ih =>
    intro fuel r p pn hf hall
    cases fuel with
    | zero => omega
    | succ f =>
      have hr : hn r = true := by simpa using hall 0 (by omega)
      have hrec : j + 2 ≤ (pageLoop hn f (r + 1) (p + 1) (some p)).length := by
        refine ih f (r + 1) (p + 1) (some p) (by omega) ?_
        intro i hi
        have := hall (i + 1) (by omega)
        rwa [show r + (i + 1) = r + 1 + i by omega] at this
      simp [pageLoop, hr]
      omega

/-- C5 amended: the first request body carries no pageNumber; after every
page with continuation evidence the body pageNumber is set to the current
page counter before the counter is incremented, so the request at position
k + 1 carries pageNumber k + 1 and in particular the second request
re-requests page 1 (the page the first request fetched under the server
default) instead of the page after it; the loop sends exactly j + 1 requests
when the first j responses carry continuation evidence and response j does
not, and keeps going past request j + 1 while every response up to j carries
continuation evidence. -/
theorem find_ids_pagination_amended :
    (∀ (hn : Nat → Bool) (fuel k : Nat) (b : Option Nat),
        (find_ids_bodies hn fuel).get? (k + 1) = some b → b = some (k + 1))
    ∧ (∀ (hn : Nat → Bool) (fuel : Nat), 0 < fuel →
        (find_ids_bodies hn fuel).get? 0 = some none)
    ∧ (∀ (hn : Nat → Bool) (fuel j : Nat), j < fuel →
        (∀ i, i < j → hn i = true) → hn j = false →
        (find_ids_bodies hn fuel).length = j + 1)
    ∧ (∀ (hn : Nat → Bool) (fuel j : Nat), j + 1 < fuel →
        (∀ i, i ≤ j → hn i = true) →
        j + 2 ≤ (find_ids_bodies hn fuel).length) := by
  refine ⟨?_, ?_, ?_, ?_⟩
  · intro hn fuel k b h
    have := pageLoop_pageNumbers hn fuel 0 1 none k b h
    rwa [show 1 + k = k + 1 by omega] at this
  · intro hn fuel h
    cases fuel with
    | zero => omega
    | succ f => rfl
  · intro hn fuel j hf hall hj
    exact pageLoop_length hn j fuel 0 1 none hf (by simpa using hall) (by simpa using hj)
  · intro hn fuel j hf hall
    exact pageLoop_continues hn j fuel 0 1 none hf (by simpa using hall)

/-- Witness: find_ids_pagination_amended applied to the run whose first
response has no continuation evidence. -/
theorem find_ids_pagination_amended_witness :
    (find_ids_bodies (fun _ => false) 3).length = 0 + 1 :=
  find_ids_pagination_amended.2.2.1 (fun _ => false) 3 0 (by omega)
    (fun i hi => absurd hi (by omega)) rfl

/-- Python iteration over a JSON value: a list yields its items, a string its
characters, a dict its keys; other values raise TypeError (none). -/
def pyIter : Json → Option (List Json)
  | .arr l => some l
  | .str s => some (s.data.map fun c => .str (String.mk [c]))
  | .obj kvs => some (kvs.map fun kv => .str kv.1)
  | _ => none

/-- Python division by 1000 of a JSON value: numbers divide exactly (floats
modelled as rationals), booleans coerce to 0 or 1, anything else raises
TypeError. -/
def pyNum1000 : Json → Option Json
  | .num q => some (.num (q / 1000))
  | .bool b => some (.num ((if b then (1 : ℚ) else 0) / 1000))
  | _ => none

/-- Embeds the row written per recording in find_ids (main.py lines
120-126): conversation id, recording id, start time, duration in seconds
(durationMilliseconds defaulting to 0, divided by 1000), agent name from the
nested agent object.  none models an exception while building the row. -/
def find_ids_row (convId : Json) (rec : Json) : Option (List Json) :=
  match rec with
  | .obj kvs =>
    match pyNum1000 ((lookupJ "durationMilliseconds" kvs).getD (.num 0)),
          (lookupJ "agent" kvs).getD (.obj []) with
    | some dur, .obj akvs =>
      some [convId, (lookupJ "id" kvs).getD (.str "N/A"),
            (lookupJ "startTime" kvs).getD (.str "N/A"), dur,
            (lookupJ "name" akvs).getD (.str "N/A")]
    | _, _ => none
  | _ => none

/-- The recording loop of find_ids: rows in order until a row raises (rows
already written remain in the file); the Bool reports completion. -/
def find_ids_recLoop (cid : Json) : List Json → List (List Json) × Bool
  | [] => ([], true)
  | r :: rs =>
    match find_ids_row cid r with
    | none => ([], false)
    | some row =>
      let t := find_ids_recLoop cid rs
      (row :: t.1, t.2)

/-- One conversation entry of a query page: the conversation object from the
page, and the status and body of the per-conversation recordings lookup. -/
structure ConvEntry where
  conv : Json
  recStatus : Nat
  recBody : Json

/-- Rows produced for one conversation of a page (main.py lines 111-132):
non-200 recording lookups are skipped with a message, a 200 body is
iterated, and an exception aborts everything (Bool false). -/
def find_ids_convRows (ce : ConvEntry) : List (List Json) × Bool :=
  match ce.conv with
  | .obj kvs =>
    let cid := (lookupJ "conversationId" kvs).getD .null
    if ce.recStatus = 200 then
      match pyIter ce.recBody with
      | none => ([], false)
      | some recs => find_ids_recLoop cid recs
    else ([], true)
  | _ => ([], false)

/-- Rows of one page: conversations in order; an exception stops the page
(and the whole loop). -/
def find_ids_pageRows : List ConvEntry → List (List Json) × Bool
  | [] => ([], true)
  | c :: cs =>
    let r := find_ids_convRows c
    if r.2 then
      let t := find_ids_pageRows cs
      (r.1 ++ t.1, t.2)
    else (r.1, false)

/-- One page of the query response: its conversation entries and whether the
response carried a nextUri. -/
structure Page where
  conversations : List ConvEntry
  hasNext : Bool

/-- Data rows find_ids writes over the pages it receives: pages in order,
stopping after a page without nextUri or on an exception. -/
def find_ids_rows : List Page → List (List Json)
  | [] => []
  | p :: ps =>
    let r := find_ids_pageRows p.conversations
    if r.2 then (if p.hasNext then r.1 ++ find_ids_rows ps else r.1) else r.1

/-- Header row of the time-range export (main.py line 90). -/
def header5 : List Json :=
  [.str "Conversation ID", .str "Recording ID", .str "Start Time",
   .str "Duration (seconds)", .str "Agent Name"]

/-- Embeds the file effect of find_ids: the file is opened with mode "w"
(main.py line 88), which truncates any existing content, then the header row
and the data rows are written.  The old file content is a parameter only to
exhibit that it does not influence the result. -/
def find_ids_write (_oldFile : List (List Json)) (pages : List Page) : List (List Json) :=
  header5 :: find_ids_rows pages

/-- C7 counterexample: the claim says every write of the export file is
append-only in both modes, but a time-range run over an existing file with
one row produces a file not containing that row: find_ids opens the path in
write mode and truncates it. -/
theorem find_ids_write_truncates_counterexample :
    find_ids_write [[Json.str "x"]] [] = [header5]
    ∧ ¬ ([Json.str "x"] ∈ find_ids_write [[Json.str "x"]] []) :=
  ⟨rfl, by simp [find_ids_write, find_ids_rows, header5]⟩

/-- C7 amended: identifier-detail mode writes are append-only — existing
rows are kept unchanged at the front, new rows accumulate after them, and the
header is not re-emitted on a non-empty file, so duplicate runs duplicate
rows; time-range mode is not append-only: find_ids truncates the file, and
its result is independent of the previous content, always a fresh header
followed by the new data rows. -/
theorem export_append_only_amended :
    (∀ (convId : String) (recs : List Json) (file : List (List Json)),
        (appendFile convId recs file).1.take file.length = file)
    ∧ (∀ (convId : String) (recs : List Json) (file : List (List Json)), file ≠ [] →
        (appendFile convId recs file).1 = file ++ (writeRows convId recs).1)
    ∧ (∀ (old old' : List (List Json)) (pages : List Page),
        find_ids_write old pages = find_ids_write old' pages)
    ∧ (∀ (old : List (List Json)) (pages : List Page),
        find_ids_write old pages = header5 :: find_ids_rows pages) := by
  refine ⟨?_, ?_, fun _ _ _ => rfl, fun _ _ => rfl⟩
  · intro convId recs file
    show List.take file.length
        ((file ++ if file.isEmpty = true then [header7] else []) ++ (writeRows convId recs).1)
        = file
    rw [List.append_assoc, List.take_left]
  · intro convId recs file h
    cases file with
    | nil => exact absurd rfl h
    | cons a t => simp [appendFile]

/-- Witness: export_append_only_amended applied to an append onto a one-row
file. -/
theorem export_append_only_amended_witness :
    (appendFile "c" [] [[Json.str "x"]]).1 = [[Json.str "x"]] ++ (writeRows "c" []).1 :=
  export_append_only_amended.2.1 "c" [] [[Json.str "x"]] (by simp)

/-- Outcome of one HTTP GET: a response with a status and a body whose JSON
decoding either succeeds or fails, or a transport error. -/
inductive HttpOutcome where
  | resp (status : Nat) (body : Except String Json) : HttpOutcome
  | err (msg : String) : HttpOutcome

/-- Embeds get_conversation_details (main.py lines 259-286).  The function
issues exactly one request (it has no retry loop); the Nat in the result
counts requests.  Status 200 returns the decoded body (a malformed body on
200 raises json.JSONDecodeError outside every handler of the function,
modelled as Except.error); status 403 prints the not-authorized warning
(the Bool) and returns None; any other status prints a generic message and
returns None; a transport error is caught and returns None. -/
def get_conversation_details : HttpOutcome → Except String (Option Json) × Bool × Nat
  | .resp 200 (.ok b) => (.ok (some b), false, 1)
  | .resp 200 (.error e) => (.error e, false, 1)
  | .resp 403 _ => (.ok none, true, 1)
  | .resp _ _ => (.ok none, false, 1)
  | .err _ => (.ok none, false, 1)

/-- C8: a 403 response on the conversation-detail lookup returns None with
the warning printed, raises no exception (the result is Except.ok), and
issues exactly one request — no retry, never fatal. -/
theorem get_conversation_details_403 (body : Except String Json) :
    get_conversation_details (.resp 403 body) = (.ok none, true, 1) := by
  cases body <;> rfl

/-- Witness: get_conversation_details_403 at a concrete 403 body. -/
theorem get_conversation_details_403_witness :
    get_conversation_details (.resp 403 (.ok (.obj []))) = (.ok none, true, 1) :=
  get_conversation_details_403 (.ok (.obj []))

/-- Observable steps of the identifier-list driver in main: processing one
identifier, and a cooldown sleep. -/
inductive MEv where
  | proc (cid : String) : MEv
  | cool (secs : Nat) : MEv
  deriving DecidableEq

/-- Whether an event is a cooldown sleep. -/
def isCool : MEv → Bool
  | .cool _ => true
  | _ => false

/-- Embeds the batch loop of main (main.py lines 439-454): identifiers are
enumerated starting at 1 and a 5-second sleep follows every identifier whose
1-based index is a multiple of 50. -/
def mainGo (i : Nat) : List String → List MEv
  | [] => []
  | cid :: rest =>
    .proc cid :: ((if i % 50 = 0 then [.cool 5] else []) ++ mainGo (i + 1) rest)

/-- The identifier-list driver: conversation_ids[:800] then the batch loop
(main.py lines 433-454). -/
def main_process (ids : List String) : List MEv := mainGo 1 (ids.take 800)

theorem mainGo_coolCount : ∀ (l : List String) (i : Nat),
    (mainGo (i + 1) l).countP (fun e => isCool e) = (i + l.length) / 50 - i / 50 := by
  intro l
  induction l with
  | nil => intro i; simp [mainGo]
  | cons c rest ih =>
    intro i
    have h1 : (i + 1) / 50 = i / 50 + if 50 ∣ i + 1 then 1 else 0 := Nat.succ_div i 50
    have h2 := ih (i + 1)
    have hmono : i / 50 ≤ (i + 1) / 50 := Nat.div_le_div_right (by omega)
    have hmono2 : (i + 1) / 50 ≤ (i + 1 + rest.length) / 50 := Nat.div_le_div_right (by omega)
    have hdvd : 50 ∣ i + 1 ↔ (i + 1) % 50 = 0 := Nat.dvd_iff_mod_eq_zero
    by_cases hc : (i + 1) % 50 = 0
    · rw [if_pos (hdvd.mpr hc)] at h1
      simp only [mainGo, List.countP_cons, List.countP_append, hc, if_pos, isCool,
        List.countP_nil] at h2 ⊢
      simp only [show ((1:Nat) + 1) % 50 ≠ 0 by omega] at *
      rw [h2]
      simp [isCool]
      omega
    · rw [if_neg (fun hd => hc (hdvd.mp hd))] at h1
      simp only [mainGo, List.countP_cons, List.countP_append, hc, if_neg, isCool,
        List.countP_nil] at h2 ⊢
      rw [h2]
      simp [isCool, hc]
      omega

/-- C9: in identifier-list mode the number of 5-second cooldowns equals the
number of processed identifiers (the input truncated to 800) divided by 50,
and for 120 identifiers there are exactly two cooldowns, right after the
50th and the 100th processed identifiers. -/
theorem cooldown_every_50 :
    (∀ ids : List String,
        (main_process ids).countP (fun e => isCool e) = (ids.take 800).length / 50)
    ∧ (main_process (List.replicate 120 "c")).countP (fun e => isCool e) = 2
    ∧ (main_process (List.replicate 120 "c")).get? 50 = some (.cool 5)
    ∧ (main_process (List.replicate 120 "c")).get? 101 = some (.cool 5) := by
  refine ⟨?_, by decide, by decide, by decide⟩
  intro ids
  have h := mainGo_coolCount (ids.take 800) 0
  simpa [main_process] using h

/-- Witness: cooldown_every_50 applied to the 120-identifier batch. -/
theorem cooldown_every_50_witness :
    (main_process (List.replicate 120 "c")).countP (fun e => isCool e)
      = ((List.replicate 120 "c").take 800).length / 50 :=
  cooldown_every_50.1 (List.replicate 120 "c")

/-- The six Python values that are falsy in a truth test. -/
def pyFalsy : Json → Bool
  | .null => true
  | .bool b => !b
  | .num q => q == 0
  | .str s => s == ""
  | .arr l => l.isEmpty
  | .obj l => l.isEmpty

/-- Embeds the result of the first, shadowed definition of
find_recordings_by_conversation_id (main.py lines 150-190): recordings =
response.json().get("entities", []) — the entities value with default [],
never the three-shape normalization; a non-dict response raises and the
outer handler returns [].  For a truthy non-list entities value the outcome
depends on pandas DataFrame construction details, which this embedding
leaves as none. -/
def find_recordings_v1_result (body : Json) : Option Json :=
  match body with
  | .obj kvs =>
    match (lookupJ "entities" kvs).getD (.arr []) with
    | .arr l => some (.arr l)
    | v => if pyFalsy v then some v else none
  | _ => some (.arr [])

/-- Whether the first definition writes to the output file: it only writes
when recordings is truthy (if recordings:, main.py line 182), via pandas
DataFrame.to_csv. -/
def find_recordings_v1_writes (body : Json) : Option Bool :=
  match body with
  | .obj kvs =>
    match (lookupJ "entities" kvs).getD (.arr []) with
    | .arr l => some (!l.isEmpty)
    | v => if pyFalsy v then some false else none
  | _ => some false

/-- Result of the second definition on a successful fetch: the three-shape
normalization, always a list. -/
def find_recordings_v2_result (body : Json) : Option Json :=
  some (.arr (normalize body))

/-- The class body of GenesysIDFinder binds the method name twice (main.py
lines 150 and 192).  Python executes a class body top to bottom and the
class dict keeps the later binding for a repeated name.  Entries pair the
name with the response-to-result behavior of each definition. -/
def classBodyBindings : List (String × (Json → Option Json)) :=
  [("find_recordings_by_conversation_id", find_recordings_v1_result),
   ("find_recordings_by_conversation_id", find_recordings_v2_result)]

/-- Attribute lookup on the class: the last binding for the name wins. -/
def boundMethod (nm : String) : Option (Json → Option Json) :=
  ((classBodyBindings.filter fun kv => kv.1 == nm).getLast?).map Prod.snd

/-- C10: the identifier-detail fetch is defined twice and the second
definition silently replaces the first: method name lookup yields the second
definition; the two are not observationally equivalent — on the bare-object
response the first yields [] (entities default) and writes nothing, while
the effective method yields the wrapped singleton and appends a
seven-column csv row. -/
theorem second_definition_shadows_first :
    boundMethod "find_recordings_by_conversation_id" = some find_recordings_v2_result
    ∧ find_recordings_v1_result (.obj [("id", .str "a")]) = some (.arr [])
    ∧ find_recordings_v2_result (.obj [("id", .str "a")])
        = some (.arr [.obj [("id", .str "a")]])
    ∧ Json.arr [] ≠ Json.arr [.obj [("id", .str "a")]]
    ∧ find_recordings_v1_writes (.obj [("id", .str "a")]) = some false
    ∧ find_recordings_by_conversation_id (fun _ => true) (.obj [("id", .str "a")]) "c" []
        = ([.obj [("id", .str "a")]],
           [header7,
            [.str "c", .str "a", .str "N/A", .str "N/A", .str "N/A", .str "N/A", .str "N/A"]],
           [.req 0]) :=
  ⟨rfl, rfl, rfl, by simp, rfl, rfl⟩

end Analyse
